import Mathlib

/-
Shallow embedding of the RCM staffing optimizer of this repository
(src/rcm/optimizer.py, with parameters from src/rcm/config.py and the
workload arithmetic shared with src/rcm/calculations.py).

Modelling conventions:
* Python float arithmetic is modelled exactly over ℚ; all quantities in play
  are small exact decimals, and every claim under study is structural.
* Python dicts keyed by month are modelled as association lists (List (ℕ × ℕ))
  in insertion order; dict assignment `d[k] = v` is `dictSet`.
* The pulp/CBC integer program of `_optimize_staffing` pins the two hire-count
  variables by equality constraints, so the only free variable is `managers`,
  whose objective coefficient is strictly positive; the solver therefore
  returns the least non-negative integer satisfying the ratio constraint
  `managers >= total_analysts / analysts_per_manager`.  `solve_managers`
  models that contract as a least-element choice (Nat.find).
* config.py binds TIME_CONSTANTS twice; the later binding wins in Python, so
  days_per_month = 20.
-/

namespace RCM

/-- ACCOUNTS_PER_MONTH from src/rcm/config.py: incremental accounts added in
each month (10, 30, 60 for months 1..3, otherwise 0 via dict.get default). -/
def accounts_per_month (m : ℕ) : ℕ :=
  if m = 1 then 10 else if m = 2 then 30 else if m = 3 then 60 else 0

/-- CLAIMS_PARAMS claims_per_account from src/rcm/config.py. -/
def claims_per_account : ℕ := 10000

/-- CLAIMS_PARAMS average_claim_value from src/rcm/config.py. -/
def average_claim_value : ℚ := 200

/-- CLAIMS_PARAMS revenue_percentage from src/rcm/config.py. -/
def revenue_percentage : ℚ := 5 / 100

/-- CLAIMS_PARAMS denial_rate from src/rcm/config.py. -/
def denial_rate : ℚ := 15 / 100

/-- CLAIMS_PARAMS recovery_rate from src/rcm/config.py. -/
def recovery_rate : ℚ := 60 / 100

/-- TIME_CONSTANTS days_per_month from src/rcm/config.py (the second binding
of TIME_CONSTANTS, which overrides the first in Python). -/
def days_per_month : ℚ := 20

/-- TIME_CONSTANTS hours_per_day from src/rcm/config.py. -/
def hours_per_day : ℚ := 8

/-- LABOR_COSTS base_analyst from src/rcm/config.py. -/
def base_analyst_rate : ℚ := 5 / 2

/-- LABOR_COSTS manager from src/rcm/config.py. -/
def manager_rate : ℚ := 15 / 4

/-- OVERHEAD_COSTS per_analyst from src/rcm/config.py. -/
def per_analyst_overhead : ℚ := 50

/-- OVERHEAD_COSTS per_manager from src/rcm/config.py. -/
def per_manager_overhead : ℚ := 100

/-- OVERHEAD_COSTS fixed_monthly from src/rcm/config.py. -/
def fixed_monthly_overhead : ℚ := 10000

/-- STAFF_RATIOS analysts_per_manager from src/rcm/config.py. -/
def analysts_per_manager : ℕ := 24

/-- One process type's entry of the productivity ramp-up table read as
cfg.PRODUCTIVITY_RAMP_UP[process_type] by optimizer.py: a base daily
throughput and the three tenure-tier productivity fractions. -/
structure RampUp where
  base_throughput : ℚ
  p0 : ℚ
  p1 : ℚ
  p2 : ℚ
deriving DecidableEq

/-- Tenure-tier lookup of optimizer.py lines 60-65: tier 2 for
months_since_hire >= 2, otherwise productivity[months_since_hire]. -/
def tier_productivity (r : RampUp) (months_since_hire : ℕ) : ℚ :=
  if 2 ≤ months_since_hire then r.p2
  else if months_since_hire = 1 then r.p1
  else r.p0

/-- A per-process cohort dict of RCMOptimizer.cohorts: hire-month keys mapped
to headcount, in insertion order. -/
abbrev Cohorts := List (ℕ × ℕ)

/-- Python dict assignment `d[k] = v`: overwrite in place when the key is
present, else append the new binding. -/
def dictSet (d : Cohorts) (k v : ℕ) : Cohorts :=
  if d.any (fun c => c.1 == k) then d.map (fun c => if c.1 == k then (k, v) else c)
  else d ++ [(k, v)]

/-- RCMOptimizer._calculate_effective_capacity (optimizer.py lines 48-69): sum,
over cohorts already hired by `month`, of headcount times tenure-tier
productivity times base throughput. -/
def calculate_effective_capacity (r : RampUp) (cohorts : Cohorts) (month : ℕ) : ℚ :=
  (cohorts.map (fun c =>
    if c.1 ≤ month then (c.2 : ℚ) * tier_productivity r (month - c.1) * r.base_throughput
    else 0)).sum

/-- RCMOptimizer._calculate_total_active_analysts (optimizer.py lines 71-74). -/
def calculate_total_active_analysts (cohorts : Cohorts) (month : ℕ) : ℕ :=
  (cohorts.map (fun c => if c.1 ≤ month then c.2 else 0)).sum

/-- RCMOptimizer._calculate_net_new_hires (optimizer.py lines 76-97), returning
the Python int produced by math.ceil. -/
def calculate_net_new_hires (r : RampUp) (cohorts : Cohorts) (month : ℕ)
    (daily_workload : ℚ) : ℤ :=
  let monthly_workload := daily_workload * days_per_month
  let monthly_capacity := calculate_effective_capacity r cohorts month * days_per_month
  let capacity_gap := max 0 (monthly_workload - monthly_capacity)
  if capacity_gap ≤ 0 then 0
  else Int.ceil (capacity_gap / (r.p0 * (r.base_throughput * days_per_month)))

/-- Outcome of the pulp/CBC solve of optimizer.py lines 107-152 for the only
free variable: the hire counts are pinned by equality constraints and the
objective is strictly increasing in `managers`, so the committed optimum is
the least non-negative integer m with total_analysts <= analysts_per_manager * m
(the integer form of the Manager_Ratio constraint of line 149). -/
def solve_managers (total_analysts : ℕ) : ℕ :=
  Nat.find (show ∃ m : ℕ, total_analysts ≤ analysts_per_manager * m from
    ⟨total_analysts, by unfold analysts_per_manager; omega⟩)

/-- Cohort-dict update of optimizer.py lines 154-163: month 0 stores both
counts unconditionally; later months store a count only when it is
strictly positive. -/
def update_cohorts (month new_sub new_den : ℕ) (sub den : Cohorts) :
    Cohorts × Cohorts :=
  if month = 0 then (dictSet sub 0 new_sub, dictSet den 0 new_den)
  else ((if 0 < new_sub then dictSet sub month new_sub else sub),
        (if 0 < new_den then dictSet den month new_den else den))

/-- Monthly result dict of optimizer.py lines 182-194 / 205-217 and §3's
MonthlyPlan: `margin` is the 'gross_margin' / 'margin' key, and the two
cohort fields are the emission-time contents of the snapshot of line 193. -/
structure MonthlyPlan where
  month : ℕ
  active_accounts : ℕ
  submission_analysts : ℕ
  denial_analysts : ℕ
  managers : ℕ
  labor_cost : ℚ
  overhead_cost : ℚ
  total_cost : ℚ
  revenue : ℚ
  margin : ℚ
  cohorts_submission : Cohorts
  cohorts_denial : Cohorts
deriving DecidableEq

/-- Daily claims of optimizer.py lines 102-103: monthly claims of the active
accounts divided by days_per_month. -/
def daily_claims_of (accounts : ℕ) : ℚ :=
  ((accounts * claims_per_account : ℕ) : ℚ) / days_per_month

/-- Daily denials of optimizer.py line 104: daily claims times denial_rate
(the recovery_rate of calculations.py line 42 is not applied here). -/
def daily_denials_of (accounts : ℕ) : ℚ :=
  daily_claims_of accounts * denial_rate

/-- RCMOptimizer._optimize_staffing (optimizer.py lines 99-194): size net-new
hires from the capacity gap, pin them in the solve, pick the least feasible
manager count, commit the hires to the cohort dicts, and emit the month's
plan together with the updated cohort state. -/
def optimize_staffing (rS rD : RampUp) (sub den : Cohorts) (month accounts : ℕ) :
    MonthlyPlan × Cohorts × Cohorts :=
  let monthly_claims : ℚ := ((accounts * claims_per_account : ℕ) : ℚ)
  let new_submission_analysts :=
    (calculate_net_new_hires rS sub month (daily_claims_of accounts)).toNat
  let new_denial_analysts :=
    (calculate_net_new_hires rD den month (daily_denials_of accounts)).toNat
  let total_submission_analysts :=
    calculate_total_active_analysts sub month + new_submission_analysts
  let total_denial_analysts :=
    calculate_total_active_analysts den month + new_denial_analysts
  let managers := solve_managers (total_submission_analysts + total_denial_analysts)
  let state := update_cohorts month new_submission_analysts new_denial_analysts sub den
  let labor_cost :=
    (total_submission_analysts : ℚ) * base_analyst_rate * hours_per_day * days_per_month +
    (total_denial_analysts : ℚ) * base_analyst_rate * hours_per_day * days_per_month +
    (managers : ℚ) * manager_rate * hours_per_day * days_per_month
  let overhead_cost :=
    ((total_submission_analysts : ℚ) + (total_denial_analysts : ℚ)) * per_analyst_overhead +
    (managers : ℚ) * per_manager_overhead + fixed_monthly_overhead
  let total_cost := labor_cost + overhead_cost
  let revenue := monthly_claims * average_claim_value * revenue_percentage
  let gross_margin := if 0 < revenue then (revenue - total_cost) / revenue else 0
  ({ month := month, active_accounts := accounts,
     submission_analysts := total_submission_analysts,
     denial_analysts := total_denial_analysts,
     managers := managers,
     labor_cost := labor_cost, overhead_cost := overhead_cost, total_cost := total_cost,
     revenue := revenue, margin := gross_margin,
     cohorts_submission := state.1, cohorts_denial := state.2 }, state)

/-- RCMOptimizer._get_active_accounts (optimizer.py lines 42-46): cumulative
ACCOUNTS_PER_MONTH over months 1..month, 0 for month 0. -/
def active_accounts (month : ℕ) : ℕ :=
  if month = 0 then 0 else ((List.range' 1 month).map accounts_per_month).sum

/-- Month-0 solver call of optimizer.py lines 201-204: staffing is sized for
month 1's accounts against the empty cohort state. -/
def run0 (rS rD : RampUp) : MonthlyPlan × Cohorts × Cohorts :=
  optimize_staffing rS rD [] [] 0 (active_accounts 1)

/-- Month-1 solver call of the loop of optimizer.py lines 220-225. -/
def run1 (rS rD : RampUp) : MonthlyPlan × Cohorts × Cohorts :=
  optimize_staffing rS rD (run0 rS rD).2.1 (run0 rS rD).2.2 1 (active_accounts 1)

/-- Month-2 solver call of the loop of optimizer.py lines 220-225. -/
def run2 (rS rD : RampUp) : MonthlyPlan × Cohorts × Cohorts :=
  optimize_staffing rS rD (run1 rS rD).2.1 (run1 rS rD).2.2 2 (active_accounts 2)

/-- Month-3 solver call of the loop of optimizer.py lines 220-225. -/
def run3 (rS rD : RampUp) : MonthlyPlan × Cohorts × Cohorts :=
  optimize_staffing rS rD (run2 rS rD).2.1 (run2 rS rD).2.2 3 (active_accounts 3)

/-- Month-0 result dict of optimizer.py lines 205-217: the staffing fields of
the month-0 solve, with active_accounts, revenue and margin forced to 0. -/
def month0_plan (staff : MonthlyPlan) : MonthlyPlan :=
  { staff with month := 0, active_accounts := 0, revenue := 0, margin := 0 }

/-- RCMOptimizer.optimize (optimizer.py lines 196-241): the ordered 4-month
plan list. -/
def optimize (rS rD : RampUp) : List MonthlyPlan :=
  [month0_plan (run0 rS rD).1, (run1 rS rD).1, (run2 rS rD).1, (run3 rS rD).1]

/-- Cohort state after the month-3 solve: the final contents of the two
in-place-mutated cohort dicts of RCMOptimizer.cohorts. -/
def final_cohorts (rS rD : RampUp) : Cohorts × Cohorts := (run3 rS rD).2

/-- Contents every emitted plan's cohort snapshot reads as once the run has
finished: `self.cohorts.copy()` at optimizer.py line 193 copies only the
outer dict, while the two inner per-process dicts are created once
(lines 37-40) and mutated in place (lines 156-163), so each snapshot aliases
them and observes the final cohort state. -/
def observed_cohort_snapshot (rS rD : RampUp) : Cohorts × Cohorts :=
  final_cohorts rS rD

/-- Modelled from the spec: config.py defines no PRODUCTIVITY_RAMP_UP table
even though optimizer.py reads cfg.PRODUCTIVITY_RAMP_UP['submission'].
Spec §3 requires three non-decreasing productivity fractions ending at 1.0,
§8 gives throughput_submission = 100 claims/analyst/day, and the code comment
at optimizer.py line 92 fixes tier 0 at 80%; tier 1 is taken as 90%. -/
def spec_ramp_submission : RampUp :=
  { base_throughput := 100, p0 := 4 / 5, p1 := 9 / 10, p2 := 1 }

/-- Modelled from the spec: the denial entry of the missing
PRODUCTIVITY_RAMP_UP table, with throughput_denial = 40 denials/analyst/day
from spec §8 and the same ramp fractions as the submission entry. -/
def spec_ramp_denial : RampUp :=
  { base_throughput := 40, p0 := 4 / 5, p1 := 9 / 10, p2 := 1 }

/-- Configuration as seen by the optimizer module: the parameter tables that
config.py always defines are baked into the definitions above, and the
PRODUCTIVITY_RAMP_UP table (submission and denial entries) is optional
because config.py does not define it. -/
structure Config where
  PRODUCTIVITY_RAMP_UP : Option (RampUp × RampUp)

/-- RCMOptimizer.__init__ (optimizer.py lines 17-40): precompute each month's
active accounts, monthly claim value and revenue.  It touches only
TIME_CONSTANTS, ACCOUNTS_PER_MONTH and CLAIMS_PARAMS, which config.py always
defines, so construction succeeds whether or not the ramp-up table exists. -/
def RCMOptimizer_init (_c : Config) : Except String (List (ℕ × ℚ × ℚ)) :=
  Except.ok ((List.range 4).map (fun m =>
    (active_accounts m,
     ((active_accounts m * claims_per_account : ℕ) : ℚ) * average_claim_value,
     ((active_accounts m * claims_per_account : ℕ) : ℚ) * average_claim_value *
       revenue_percentage)))

/-- RCMOptimizer.optimize on a constructed optimizer: the first monthly solve
dereferences cfg.PRODUCTIVITY_RAMP_UP (optimizer.py lines 51-52), so a
missing table surfaces here as a runtime AttributeError. -/
def RCMOptimizer_optimize (c : Config) : Except String (List MonthlyPlan) :=
  match c.PRODUCTIVITY_RAMP_UP with
  | some (rS, rD) => Except.ok (optimize rS rD)
  | none => Except.error ("AttributeError: module rcm.config has no attribute PRODUCTIVITY_RAMP_UP")

/-- Success test on an Except value, used to state where failures surface. -/
def except_ok {ε α : Type} : Except ε α → Bool
  | Except.ok _ => true
  | Except.error _ => false

/-- Productivity tiers are non-negative when the table satisfies the spec
invariant (non-decreasing fractions starting from a non-negative tier 0). -/
theorem tier_productivity_nonneg (r : RampUp) (h0 : 0 ≤ r.p0) (h1 : r.p0 ≤ r.p1)
    (h2 : r.p1 ≤ r.p2) (t : ℕ) : 0 ≤ tier_productivity r t := by
  unfold tier_productivity
  split_ifs <;> linarith

/-- Tenure-tier productivity is monotone in tenure for a non-decreasing table. -/
theorem tier_productivity_mono (r : RampUp) (h1 : r.p0 ≤ r.p1) (h2 : r.p1 ≤ r.p2)
    {t t' : ℕ} (h : t ≤ t') : tier_productivity r t ≤ tier_productivity r t' := by
  unfold tier_productivity
  split_ifs <;> first | linarith | (exfalso; omega)

/-- The branchy tier lookup of optimizer.py lines 60-65 agrees with the spec's
productivity[min(tenure, 2)] formulation. -/
theorem tier_productivity_eq_getD (r : RampUp) (t : ℕ) :
    tier_productivity r t = [r.p0, r.p1, r.p2].getD (min t 2) 0 := by
  unfold tier_productivity
  rcases t with _ | _ | n
  · simp
  · simp
  · have hmin : min (n + 2) 2 = 2 := by omega
    simp [hmin]

/-- Effective capacity vanishes on any month strictly before every hire month. -/
theorem calculate_effective_capacity_of_lt (r : RampUp) (cohorts : Cohorts) (m : ℕ)
    (h : ∀ c ∈ cohorts, m < c.1) : calculate_effective_capacity r cohorts m = 0 := by
  unfold calculate_effective_capacity
  refine List.sum_eq_zero ?_
  intro x hx
  rw [List.mem_map] at hx
  obtain ⟨c, hc, rfl⟩ := hx
  rw [if_neg (by have := h c hc; omega)]

/-- Effective capacity is non-decreasing in the evaluation month for fixed
cohorts and a spec-conform ramp table. -/
theorem calculate_effective_capacity_mono (r : RampUp) (cohorts : Cohorts)
    (hbt : 0 ≤ r.base_throughput) (h0 : 0 ≤ r.p0) (h1 : r.p0 ≤ r.p1) (h2 : r.p1 ≤ r.p2)
    {m m' : ℕ} (h : m ≤ m') :
    calculate_effective_capacity r cohorts m ≤ calculate_effective_capacity r cohorts m' := by
  unfold calculate_effective_capacity
  refine List.sum_le_sum ?_
  intro c _
  by_cases hc : c.1 ≤ m
  · rw [if_pos hc, if_pos (le_trans hc h)]
    refine mul_le_mul_of_nonneg_right ?_ hbt
    refine mul_le_mul_of_nonneg_left ?_ (by positivity)
    exact tier_productivity_mono r h1 h2 (Nat.sub_le_sub_right h c.1)
  · rw [if_neg hc]
    split_ifs with hc'
    · have := tier_productivity_nonneg r h0 h1 h2 (m' - c.1)
      positivity
    · exact le_refl 0

/-- Summing an if-else-0 map equals summing the mapped values over the filter
that keeps exactly the hit entries. -/
theorem sum_map_ite_filter {α : Type} (l : List α) (p : α → Prop) [DecidablePred p]
    (f : α → ℚ) :
    (l.map (fun c => if p c then f c else 0)).sum =
      ((l.filter (fun c => decide (p c))).map f).sum := by
  induction l with
  | nil => simp
  | cons c cs ih =>
    by_cases hc : p c <;> simp [List.filter_cons, hc, ih]

/-- Sum-over-filter form of effective capacity, with the spec's
productivity[min(tenure, 2)] lookup. -/
theorem calculate_effective_capacity_eq_filter (r : RampUp) (cohorts : Cohorts) (m : ℕ) :
    calculate_effective_capacity r cohorts m =
      ((cohorts.filter (fun c => decide (c.1 ≤ m))).map (fun c =>
        (c.2 : ℚ) * ([r.p0, r.p1, r.p2].getD (min (m - c.1) 2) 0) * r.base_throughput)).sum := by
  unfold calculate_effective_capacity
  rw [sum_map_ite_filter]
  refine congrArg List.sum (List.map_congr_left ?_)
  intro c _
  rw [tier_productivity_eq_getD]

/-- Total active analysts is non-decreasing in the evaluation month. -/
theorem total_active_mono_month (cohorts : Cohorts) {m m' : ℕ} (h : m ≤ m') :
    calculate_total_active_analysts cohorts m ≤ calculate_total_active_analysts cohorts m' := by
  unfold calculate_total_active_analysts
  refine List.sum_le_sum ?_
  intro c _
  by_cases hc : c.1 ≤ m
  · rw [if_pos hc, if_pos (le_trans hc h)]
  · rw [if_neg hc]
    exact Nat.zero_le _

/-- Total active analysts distributes over list append. -/
theorem total_active_append (a b : Cohorts) (m : ℕ) :
    calculate_total_active_analysts (a ++ b) m =
      calculate_total_active_analysts a m + calculate_total_active_analysts b m := by
  simp [calculate_total_active_analysts]

/-- Dict assignment at a fresh key is an append. -/
theorem dictSet_fresh (d : Cohorts) (k v : ℕ) (h : ∀ c ∈ d, c.1 ≠ k) :
    dictSet d k v = d ++ [(k, v)] := by
  unfold dictSet
  rw [if_neg]
  intro hany
  rw [List.any_eq_true] at hany
  obtain ⟨c, hc, hck⟩ := hany
  exact h c hc (by simpa using hck)

/-- Every entry of a dict after assignment was already present or has the
assigned key. -/
theorem mem_dictSet (d : Cohorts) (k v : ℕ) :
    ∀ c ∈ dictSet d k v, c ∈ d ∨ c.1 = k := by
  unfold dictSet
  split_ifs with h
  · intro c hc
    rw [List.mem_map] at hc
    obtain ⟨c', hc', rfl⟩ := hc
    by_cases hk : (c'.1 == k) = true
    · rw [if_pos hk]
      exact Or.inr rfl
    · rw [if_neg hk]
      exact Or.inl hc'
  · intro c hc
    rw [List.mem_append] at hc
    rcases hc with hc | hc
    · exact Or.inl hc
    · right
      simp only [List.mem_singleton] at hc
      subst hc
      rfl

/-- Every entry of the cohort dicts after a monthly commit was already present
or carries the committed month as its key. -/
theorem mem_update_cohorts (month ns nd : ℕ) (sub den : Cohorts) :
    (∀ c ∈ (update_cohorts month ns nd sub den).1, c ∈ sub ∨ c.1 = month) ∧
    (∀ c ∈ (update_cohorts month ns nd sub den).2, c ∈ den ∨ c.1 = month) := by
  unfold update_cohorts
  by_cases h0 : month = 0
  · subst h0
    rw [if_pos rfl]
    exact ⟨mem_dictSet sub 0 ns, mem_dictSet den 0 nd⟩
  · rw [if_neg h0]
    constructor
    · dsimp only
      by_cases hns : 0 < ns
      · rw [if_pos hns]
        exact mem_dictSet sub month ns
      · rw [if_neg hns]
        exact fun c hc => Or.inl hc
    · dsimp only
      by_cases hnd : 0 < nd
      · rw [if_pos hnd]
        exact mem_dictSet den month nd
      · rw [if_neg hnd]
        exact fun c hc => Or.inl hc

/-- A monthly commit at a key fresh for both dicts adds exactly the committed
counts to every total taken at or after the committed month (the month-0
branch stores unconditionally; later months skip a zero count, which adds
zero anyway). -/
theorem total_active_update_cohorts (month ns nd : ℕ) (sub den : Cohorts) {m' : ℕ}
    (hm : month ≤ m')
    (hsub : ∀ c ∈ sub, c.1 ≠ month) (hden : ∀ c ∈ den, c.1 ≠ month) :
    calculate_total_active_analysts (update_cohorts month ns nd sub den).1 m' =
      calculate_total_active_analysts sub m' + ns ∧
    calculate_total_active_analysts (update_cohorts month ns nd sub den).2 m' =
      calculate_total_active_analysts den m' + nd := by
  unfold update_cohorts
  by_cases h0 : month = 0
  · subst h0
    rw [if_pos rfl]
    constructor
    · rw [dictSet_fresh sub 0 ns hsub, total_active_append]
      simp [calculate_total_active_analysts]
    · rw [dictSet_fresh den 0 nd hden, total_active_append]
      simp [calculate_total_active_analysts]
  · rw [if_neg h0]
    constructor
    · dsimp only
      by_cases hns : 0 < ns
      · rw [if_pos hns, dictSet_fresh sub month ns hsub, total_active_append]
        simp [calculate_total_active_analysts, hm]
      · have hz : ns = 0 := by omega
        rw [if_neg hns, hz, Nat.add_zero]
    · dsimp only
      by_cases hnd : 0 < nd
      · rw [if_pos hnd, dictSet_fresh den month nd hden, total_active_append]
        simp [calculate_total_active_analysts, hm]
      · have hz : nd = 0 := by omega
        rw [if_neg hnd, hz, Nat.add_zero]

/-- The CBC-committed manager count is the ceiling of total analysts over the
manager ratio, in natural-division form. -/
theorem solve_managers_eq (n : ℕ) : solve_managers n = (n + 23) / 24 := by
  unfold solve_managers
  rw [Nat.find_eq_iff]
  constructor
  · show n ≤ analysts_per_manager * ((n + 23) / 24)
    unfold analysts_per_manager
    omega
  · intro k hk
    show ¬n ≤ analysts_per_manager * k
    unfold analysts_per_manager
    omega

/-- The CBC-committed manager count is monotone in the analyst total. -/
theorem solve_managers_mono {n n' : ℕ} (h : n ≤ n') :
    solve_managers n ≤ solve_managers n' := by
  rw [solve_managers_eq, solve_managers_eq]
  exact Nat.div_le_div_right (by omega)

/-- The CBC-committed manager count equals the rational ceiling of the
Manager_Ratio bound. -/
theorem solve_managers_eq_ceil (n : ℕ) :
    (solve_managers n : ℤ) = Int.ceil ((n : ℚ) / (analysts_per_manager : ℕ)) := by
  rw [solve_managers_eq]
  have hq : ((analysts_per_manager : ℕ) : ℚ) = 24 := by
    norm_num [analysts_per_manager]
  rw [hq]
  have h1 : (((n + 23) / 24 : ℕ) : ℚ) * 24 < (n : ℚ) + 24 := by
    exact_mod_cast (by omega : ((n + 23) / 24) * 24 < n + 24)
  have h2 : ((n : ℕ) : ℚ) ≤ (((n + 23) / 24 : ℕ) : ℚ) * 24 := by
    exact_mod_cast (by omega : n ≤ ((n + 23) / 24) * 24)
  refine le_antisymm ?_ ?_
  · rw [Int.le_ceil_iff, lt_div_iff₀ (by norm_num : (0 : ℚ) < 24)]
    simp only [Int.cast_natCast]
    linarith
  · rw [Int.ceil_le, div_le_iff₀ (by norm_num : (0 : ℚ) < 24)]
    simp only [Int.cast_natCast]
    linarith

set_option maxHeartbeats 1000000 in
/-- Structural reading of a monthly solve: the emitted submission total is the
pre-commit active total plus the sized hires. -/
theorem optimize_staffing_sub (rS rD : RampUp) (sub den : Cohorts) (month accounts : ℕ) :
    ((optimize_staffing rS rD sub den month accounts).1).submission_analysts =
      calculate_total_active_analysts sub month +
        (calculate_net_new_hires rS sub month (daily_claims_of accounts)).toNat := rfl

set_option maxHeartbeats 1000000 in
/-- Structural reading of a monthly solve: the emitted denial total is the
pre-commit active total plus the sized hires. -/
theorem optimize_staffing_den (rS rD : RampUp) (sub den : Cohorts) (month accounts : ℕ) :
    ((optimize_staffing rS rD sub den month accounts).1).denial_analysts =
      calculate_total_active_analysts den month +
        (calculate_net_new_hires rD den month (daily_denials_of accounts)).toNat := rfl

set_option maxHeartbeats 1000000 in
/-- Structural reading of a monthly solve: the emitted manager count is the
least feasible count for the pre-commit totals plus sized hires. -/
theorem optimize_staffing_mgr_raw (rS rD : RampUp) (sub den : Cohorts) (month accounts : ℕ) :
    ((optimize_staffing rS rD sub den month accounts).1).managers =
      solve_managers
        ((calculate_total_active_analysts sub month +
            (calculate_net_new_hires rS sub month (daily_claims_of accounts)).toNat) +
          (calculate_total_active_analysts den month +
            (calculate_net_new_hires rD den month (daily_denials_of accounts)).toNat)) := by
  unfold optimize_staffing
  dsimp only

/-- Structural reading of a monthly solve: the emitted manager count is the
least feasible count for the emitted analyst totals. -/
theorem optimize_staffing_mgr (rS rD : RampUp) (sub den : Cohorts) (month accounts : ℕ) :
    ((optimize_staffing rS rD sub den month accounts).1).managers =
      solve_managers (((optimize_staffing rS rD sub den month accounts).1).submission_analysts +
        ((optimize_staffing rS rD sub den month accounts).1).denial_analysts) := by
  rw [optimize_staffing_sub, optimize_staffing_den, optimize_staffing_mgr_raw]

set_option maxHeartbeats 1000000 in
/-- Structural reading of a monthly solve: the returned state is the committed
cohort update. -/
theorem optimize_staffing_state (rS rD : RampUp) (sub den : Cohorts) (month accounts : ℕ) :
    (optimize_staffing rS rD sub den month accounts).2 =
      update_cohorts month
        (calculate_net_new_hires rS sub month (daily_claims_of accounts)).toNat
        (calculate_net_new_hires rD den month (daily_denials_of accounts)).toNat sub den := rfl

/-- Hire-month keys never exceed the month of the solve that stored them. -/
theorem staffing_keys_le (rS rD : RampUp) (sub den : Cohorts) (m a : ℕ)
    (hsub : ∀ c ∈ sub, c.1 ≤ m) (hden : ∀ c ∈ den, c.1 ≤ m) :
    (∀ c ∈ (optimize_staffing rS rD sub den m a).2.1, c.1 ≤ m) ∧
    (∀ c ∈ (optimize_staffing rS rD sub den m a).2.2, c.1 ≤ m) := by
  rw [optimize_staffing_state rS rD sub den m a]
  obtain ⟨hm1, hm2⟩ := mem_update_cohorts m
    (calculate_net_new_hires rS sub m (daily_claims_of a)).toNat
    (calculate_net_new_hires rD den m (daily_denials_of a)).toNat sub den
  constructor
  · intro c hc
    rcases hm1 c hc with h | h
    · exact hsub c h
    · exact le_of_eq h
  · intro c hc
    rcases hm2 c hc with h | h
    · exact hden c h
    · exact le_of_eq h

/-- Two consecutive monthly solves never shrink the emitted analyst totals or
the manager count: the committed state of the earlier month carries its whole
active headcount into every later month. -/
theorem staffing_step_mono (rS rD : RampUp) (sub den : Cohorts) (m a m' a' : ℕ)
    (hm : m ≤ m')
    (hsub : ∀ c ∈ sub, c.1 ≠ m) (hden : ∀ c ∈ den, c.1 ≠ m) :
    ((optimize_staffing rS rD sub den m a).1).submission_analysts ≤
      ((optimize_staffing rS rD (optimize_staffing rS rD sub den m a).2.1
        (optimize_staffing rS rD sub den m a).2.2 m' a').1).submission_analysts ∧
    ((optimize_staffing rS rD sub den m a).1).denial_analysts ≤
      ((optimize_staffing rS rD (optimize_staffing rS rD sub den m a).2.1
        (optimize_staffing rS rD sub den m a).2.2 m' a').1).denial_analysts ∧
    ((optimize_staffing rS rD sub den m a).1).managers ≤
      ((optimize_staffing rS rD (optimize_staffing rS rD sub den m a).2.1
        (optimize_staffing rS rD sub den m a).2.2 m' a').1).managers := by
  have hf1 := optimize_staffing_sub rS rD sub den m a
  have hf2 := optimize_staffing_den rS rD sub den m a
  have hf3 := optimize_staffing_mgr rS rD sub den m a
  have hf4 := optimize_staffing_state rS rD sub den m a
  have hg1 := optimize_staffing_sub rS rD
    (optimize_staffing rS rD sub den m a).2.1 (optimize_staffing rS rD sub den m a).2.2 m' a'
  have hg2 := optimize_staffing_den rS rD
    (optimize_staffing rS rD sub den m a).2.1 (optimize_staffing rS rD sub den m a).2.2 m' a'
  have hg3 := optimize_staffing_mgr rS rD
    (optimize_staffing rS rD sub den m a).2.1 (optimize_staffing rS rD sub den m a).2.2 m' a'
  obtain ⟨hU1, hU2⟩ := total_active_update_cohorts m
    (calculate_net_new_hires rS sub m (daily_claims_of a)).toNat
    (calculate_net_new_hires rD den m (daily_denials_of a)).toNat sub den hm hsub hden
  have hsub_le :
      ((optimize_staffing rS rD sub den m a).1).submission_analysts ≤
        ((optimize_staffing rS rD (optimize_staffing rS rD sub den m a).2.1
          (optimize_staffing rS rD sub den m a).2.2 m' a').1).submission_analysts := by
    rw [hf1, hg1, hf4, hU1]
    have := total_active_mono_month sub hm
    omega
  have hden_le :
      ((optimize_staffing rS rD sub den m a).1).denial_analysts ≤
        ((optimize_staffing rS rD (optimize_staffing rS rD sub den m a).2.1
          (optimize_staffing rS rD sub den m a).2.2 m' a').1).denial_analysts := by
    rw [hf2, hg2, hf4, hU2]
    have := total_active_mono_month den hm
    omega
  refine ⟨hsub_le, hden_le, ?_⟩
  rw [hf3, hg3]
  exact solve_managers_mono (by omega)

/-- Month-0 result rebuild preserves the submission headcount field. -/
theorem month0_plan_sub (s : MonthlyPlan) :
    (month0_plan s).submission_analysts = s.submission_analysts := rfl

/-- Month-0 result rebuild preserves the denial headcount field. -/
theorem month0_plan_den (s : MonthlyPlan) :
    (month0_plan s).denial_analysts = s.denial_analysts := rfl

/-- Month-0 result rebuild preserves the manager field. -/
theorem month0_plan_mgr (s : MonthlyPlan) :
    (month0_plan s).managers = s.managers := rfl

/-- Month-0 result rebuild forces active_accounts, revenue and margin to 0. -/
theorem month0_plan_zeros (s : MonthlyPlan) :
    (month0_plan s).active_accounts = 0 ∧ (month0_plan s).revenue = 0 ∧
      (month0_plan s).margin = 0 :=
  ⟨rfl, rfl, rfl⟩

set_option maxHeartbeats 1000000 in
/-- Structural reading of a monthly solve: the emitted revenue is the month's
claims value times the revenue percentage. -/
theorem optimize_staffing_revenue (rS rD : RampUp) (sub den : Cohorts) (month accounts : ℕ) :
    ((optimize_staffing rS rD sub den month accounts).1).revenue =
      ((accounts * claims_per_account : ℕ) : ℚ) * average_claim_value * revenue_percentage := by
  unfold optimize_staffing
  dsimp only

set_option maxHeartbeats 1000000 in
/-- Structural reading of a monthly solve: the emitted margin is the guarded
quotient of revenue minus total cost over revenue, 0 when revenue is not
positive. -/
theorem optimize_staffing_margin (rS rD : RampUp) (sub den : Cohorts) (month accounts : ℕ) :
    ((optimize_staffing rS rD sub den month accounts).1).margin =
      if 0 < ((optimize_staffing rS rD sub den month accounts).1).revenue then
        (((optimize_staffing rS rD sub den month accounts).1).revenue -
          (((optimize_staffing rS rD sub den month accounts).1).labor_cost +
            ((optimize_staffing rS rD sub den month accounts).1).overhead_cost)) /
          ((optimize_staffing rS rD sub den month accounts).1).revenue
      else 0 := by
  unfold optimize_staffing
  dsimp only

/-- Evaluation rule for the gap sizer in the positive-gap case, phrased so the
side conditions are plain rational comparisons. -/
theorem nnh_eval_pos (r : RampUp) (c : Cohorts) (m : ℕ) (w cap : ℚ) (z : ℤ)
    (hcap : calculate_effective_capacity r c m = cap)
    (hgap : 0 < w * days_per_month - cap * days_per_month)
    (hz1 : (z : ℚ) - 1 < (w * days_per_month - cap * days_per_month) /
      (r.p0 * (r.base_throughput * days_per_month)))
    (hz2 : (w * days_per_month - cap * days_per_month) /
      (r.p0 * (r.base_throughput * days_per_month)) ≤ (z : ℚ)) :
    calculate_net_new_hires r c m w = z := by
  unfold calculate_net_new_hires
  dsimp only
  rw [hcap, max_eq_right (le_of_lt hgap), if_neg (by linarith)]
  exact Int.ceil_eq_iff.mpr ⟨hz1, hz2⟩

/-- Evaluation rule for the gap sizer in the no-gap case. -/
theorem nnh_eval_zero (r : RampUp) (c : Cohorts) (m : ℕ) (w cap : ℚ)
    (hcap : calculate_effective_capacity r c m = cap)
    (hle : w * days_per_month - cap * days_per_month ≤ 0) :
    calculate_net_new_hires r c m w = 0 := by
  unfold calculate_net_new_hires
  dsimp only
  rw [hcap, if_pos (max_le (le_refl 0) hle)]

/-- Cumulative account schedule: month 1 has 10 active accounts. -/
theorem active_accounts_1 : active_accounts 1 = 10 := by decide

/-- Cumulative account schedule: month 2 has 40 active accounts. -/
theorem active_accounts_2 : active_accounts 2 = 40 := by decide

/-- Cumulative account schedule: month 3 has 100 active accounts. -/
theorem active_accounts_3 : active_accounts 3 = 100 := by decide

/-- Month-0 solve of the modelled run: 63 submission and 24 denial analysts
are hired and stored as month-0 cohorts. -/
theorem run0_state :
    (run0 spec_ramp_submission spec_ramp_denial).2 = ([(0, 63)], [(0, 24)]) := by
  rw [run0, optimize_staffing_state, active_accounts_1]
  rw [nnh_eval_pos spec_ramp_submission [] 0 (daily_claims_of 10) 0 63
      (by simp [calculate_effective_capacity])
      (by norm_num [daily_claims_of, claims_per_account, days_per_month])
      (by norm_num [daily_claims_of, claims_per_account, days_per_month, spec_ramp_submission])
      (by norm_num [daily_claims_of, claims_per_account, days_per_month, spec_ramp_submission])]
  rw [nnh_eval_pos spec_ramp_denial [] 0 (daily_denials_of 10) 0 24
      (by simp [calculate_effective_capacity])
      (by norm_num [daily_denials_of, daily_claims_of, claims_per_account, days_per_month,
        denial_rate])
      (by norm_num [daily_denials_of, daily_claims_of, claims_per_account, days_per_month,
        denial_rate, spec_ramp_denial])
      (by norm_num [daily_denials_of, daily_claims_of, claims_per_account, days_per_month,
        denial_rate, spec_ramp_denial])]
  decide

/-- Month-1 solve of the modelled run: the ramped month-0 cohorts cover the
unchanged workload, so no new cohort is stored. -/
theorem run1_state :
    (run1 spec_ramp_submission spec_ramp_denial).2 = ([(0, 63)], [(0, 24)]) := by
  rw [run1, run0_state]
  dsimp only
  rw [optimize_staffing_state, active_accounts_1]
  rw [nnh_eval_zero spec_ramp_submission [(0, 63)] 1 (daily_claims_of 10) 5670
      (by norm_num [calculate_effective_capacity, tier_productivity, spec_ramp_submission])
      (by norm_num [daily_claims_of, claims_per_account, days_per_month])]
  rw [nnh_eval_zero spec_ramp_denial [(0, 24)] 1 (daily_denials_of 10) 864
      (by norm_num [calculate_effective_capacity, tier_productivity, spec_ramp_denial])
      (by norm_num [daily_denials_of, daily_claims_of, claims_per_account, days_per_month,
        denial_rate])]
  decide

/-- Month-2 solve of the modelled run: 172 submission and 64 denial analysts
are hired and stored as month-2 cohorts. -/
theorem run2_state :
    (run2 spec_ramp_submission spec_ramp_denial).2 =
      ([(0, 63), (2, 172)], [(0, 24), (2, 64)]) := by
  rw [run2, run1_state]
  dsimp only
  rw [optimize_staffing_state, active_accounts_2]
  rw [nnh_eval_pos spec_ramp_submission [(0, 63)] 2 (daily_claims_of 40) 6300 172
      (by norm_num [calculate_effective_capacity, tier_productivity, spec_ramp_submission])
      (by norm_num [daily_claims_of, claims_per_account, days_per_month])
      (by norm_num [daily_claims_of, claims_per_account, days_per_month, spec_ramp_submission])
      (by norm_num [daily_claims_of, claims_per_account, days_per_month, spec_ramp_submission])]
  rw [nnh_eval_pos spec_ramp_denial [(0, 24)] 2 (daily_denials_of 40) 960 64
      (by norm_num [calculate_effective_capacity, tier_productivity, spec_ramp_denial])
      (by norm_num [daily_denials_of, daily_claims_of, claims_per_account, days_per_month,
        denial_rate])
      (by norm_num [daily_denials_of, daily_claims_of, claims_per_account, days_per_month,
        denial_rate, spec_ramp_denial])
      (by norm_num [daily_denials_of, daily_claims_of, claims_per_account, days_per_month,
        denial_rate, spec_ramp_denial])]
  decide

/-- Month-3 solve of the modelled run: 353 submission and 133 denial analysts
are hired and stored as month-3 cohorts. -/
theorem run3_state :
    (run3 spec_ramp_submission spec_ramp_denial).2 =
      ([(0, 63), (2, 172), (3, 353)], [(0, 24), (2, 64), (3, 133)]) := by
  rw [run3, run2_state]
  dsimp only
  rw [optimize_staffing_state, active_accounts_3]
  rw [nnh_eval_pos spec_ramp_submission [(0, 63), (2, 172)] 3 (daily_claims_of 100) 21780 353
      (by norm_num [calculate_effective_capacity, tier_productivity, spec_ramp_submission])
      (by norm_num [daily_claims_of, claims_per_account, days_per_month])
      (by norm_num [daily_claims_of, claims_per_account, days_per_month, spec_ramp_submission])
      (by norm_num [daily_claims_of, claims_per_account, days_per_month, spec_ramp_submission])]
  rw [nnh_eval_pos spec_ramp_denial [(0, 24), (2, 64)] 3 (daily_denials_of 100) 3264 133
      (by norm_num [calculate_effective_capacity, tier_productivity, spec_ramp_denial])
      (by norm_num [daily_denials_of, daily_claims_of, claims_per_account, days_per_month,
        denial_rate])
      (by norm_num [daily_denials_of, daily_claims_of, claims_per_account, days_per_month,
        denial_rate, spec_ramp_denial])
      (by norm_num [daily_denials_of, daily_claims_of, claims_per_account, days_per_month,
        denial_rate, spec_ramp_denial])]
  decide

/-- Month-0 result rebuild keeps the emission-time cohort snapshot. -/
theorem month0_plan_snapshot (s : MonthlyPlan) :
    (month0_plan s).cohorts_submission = s.cohorts_submission ∧
    (month0_plan s).cohorts_denial = s.cohorts_denial :=
  ⟨rfl, rfl⟩

set_option maxHeartbeats 1000000 in
/-- Structural reading of a monthly solve: the emitted snapshot fields hold
the post-commit cohort state (line 193 runs after lines 154-163). -/
theorem optimize_staffing_snapshot (rS rD : RampUp) (sub den : Cohorts) (month accounts : ℕ) :
    ((optimize_staffing rS rD sub den month accounts).1).cohorts_submission =
      (optimize_staffing rS rD sub den month accounts).2.1 ∧
    ((optimize_staffing rS rD sub den month accounts).1).cohorts_denial =
      (optimize_staffing rS rD sub den month accounts).2.2 := by
  constructor
  · unfold optimize_staffing
    dsimp only
  · unfold optimize_staffing
    dsimp only

/-- C1: the denial-process hire sizing of `_optimize_staffing` is driven by the
raw daily denial volume daily_claims × denial_rate — every monthly solve hands
the sizer `daily_denials_of accounts` — and not by the denials-to-rework
workload daily_claims × denial_rate × recovery_rate that the claim states: at
month 3's 100 active accounts the sizer receives 7500 denials/day while the
rework workload of the claim is 4500/day. -/
theorem C1_denial_sizing_uses_raw_denials :
    (∀ (rS rD : RampUp) (sub den : Cohorts) (m a : ℕ),
      ((optimize_staffing rS rD sub den m a).1).denial_analysts =
        calculate_total_active_analysts den m +
          (calculate_net_new_hires rD den m (daily_denials_of a)).toNat) ∧
    daily_denials_of 100 = 7500 ∧
    daily_claims_of 100 * denial_rate * recovery_rate = 4500 ∧
    daily_denials_of 100 ≠ daily_claims_of 100 * denial_rate * recovery_rate := by
  refine ⟨fun rS rD sub den m a => optimize_staffing_den rS rD sub den m a, ?_, ?_, ?_⟩ <;>
    norm_num [daily_denials_of, daily_claims_of, claims_per_account, days_per_month,
      denial_rate, recovery_rate]

/-- C2: every MonthlyPlan emitted by optimize has a manager count equal to the
ceiling of (submission analysts + denial analysts) / analysts_per_manager —
the least non-negative integer satisfying the staffing-ratio constraint, with
no slack beyond the ceiling. -/
theorem C2_manager_tight_ceiling (rS rD : RampUp) (p : MonthlyPlan)
    (hp : p ∈ optimize rS rD) :
    (p.managers : ℤ) =
      Int.ceil (((p.submission_analysts + p.denial_analysts : ℕ) : ℚ) /
        (analysts_per_manager : ℕ)) := by
  have key : ∀ q : MonthlyPlan,
      q.managers = solve_managers (q.submission_analysts + q.denial_analysts) →
      (q.managers : ℤ) =
        Int.ceil (((q.submission_analysts + q.denial_analysts : ℕ) : ℚ) /
          (analysts_per_manager : ℕ)) := by
    intro q hq
    rw [hq, solve_managers_eq_ceil]
  simp only [optimize, List.mem_cons, List.not_mem_nil, or_false] at hp
  rcases hp with rfl | rfl | rfl | rfl
  · refine key _ ?_
    rw [month0_plan_mgr, month0_plan_sub, month0_plan_den]
    simp only [run0]
    exact optimize_staffing_mgr _ _ _ _ _ _
  · refine key _ ?_
    simp only [run1]
    exact optimize_staffing_mgr _ _ _ _ _ _
  · refine key _ ?_
    simp only [run2]
    exact optimize_staffing_mgr _ _ _ _ _ _
  · refine key _ ?_
    simp only [run3]
    exact optimize_staffing_mgr _ _ _ _ _ _

/-- C2 witness: the month-0 plan of the modelled run is in the emitted list
and its manager count is the tight ceiling. -/
theorem C2_manager_tight_ceiling_witness :
    (month0_plan (run0 spec_ramp_submission spec_ramp_denial).1 ∈
      optimize spec_ramp_submission spec_ramp_denial) ∧
    ((month0_plan (run0 spec_ramp_submission spec_ramp_denial).1).managers : ℤ) =
      Int.ceil ((((month0_plan (run0 spec_ramp_submission spec_ramp_denial).1).submission_analysts +
        (month0_plan (run0 spec_ramp_submission spec_ramp_denial).1).denial_analysts : ℕ) : ℚ) /
        (analysts_per_manager : ℕ)) :=
  ⟨by simp [optimize], C2_manager_tight_ceiling spec_ramp_submission spec_ramp_denial _
    (by simp [optimize])⟩

/-- C3: the month-0 plan's emission-time snapshot holds only the month-0
cohort, yet the snapshot any caller reads after the run shows the month-2 and
month-3 cohorts too — the shallow `self.cohorts.copy()` of line 193 shares
the inner per-process dicts with the tracker, so later record_hire mutations
change the already-emitted plan. -/
theorem C3_snapshot_aliasing :
    (month0_plan (run0 spec_ramp_submission spec_ramp_denial).1).cohorts_submission =
      [(0, 63)] ∧
    (observed_cohort_snapshot spec_ramp_submission spec_ramp_denial).1 =
      [(0, 63), (2, 172), (3, 353)] ∧
    (observed_cohort_snapshot spec_ramp_submission spec_ramp_denial).1 ≠
      (month0_plan (run0 spec_ramp_submission spec_ramp_denial).1).cohorts_submission := by
  have h1 : (month0_plan (run0 spec_ramp_submission spec_ramp_denial).1).cohorts_submission =
      [(0, 63)] := by
    rw [(month0_plan_snapshot _).1]
    have hs : ((run0 spec_ramp_submission spec_ramp_denial).1).cohorts_submission =
        (run0 spec_ramp_submission spec_ramp_denial).2.1 := by
      simp only [run0]
      exact (optimize_staffing_snapshot _ _ _ _ _ _).1
    rw [hs, run0_state]
  have h2 : (observed_cohort_snapshot spec_ramp_submission spec_ramp_denial).1 =
      [(0, 63), (2, 172), (3, 353)] := by
    unfold observed_cohort_snapshot final_cohorts
    rw [run3_state]
  refine ⟨h1, h2, ?_⟩
  rw [h1, h2]
  decide

/-- C4: effective capacity is the productivity-weighted sum over cohorts with
hire_month ≤ month using tier min(tenure, 2); it is non-decreasing in the
evaluation month for a table with non-decreasing non-negative fractions; and
it is 0 for a month strictly before every cohort's hire month. -/
theorem C4_effective_capacity (r : RampUp) (cohorts : Cohorts) (month : ℕ) :
    (calculate_effective_capacity r cohorts month =
      ((cohorts.filter (fun c => decide (c.1 ≤ month))).map (fun c =>
        (c.2 : ℚ) * ([r.p0, r.p1, r.p2].getD (min (month - c.1) 2) 0) *
          r.base_throughput)).sum) ∧
    (0 ≤ r.base_throughput → 0 ≤ r.p0 → r.p0 ≤ r.p1 → r.p1 ≤ r.p2 →
      ∀ m', month ≤ m' →
        calculate_effective_capacity r cohorts month ≤
          calculate_effective_capacity r cohorts m') ∧
    ((∀ c ∈ cohorts, month < c.1) → calculate_effective_capacity r cohorts month = 0) :=
  ⟨calculate_effective_capacity_eq_filter r cohorts month,
    fun hbt h0 h1 h2 _ hm => calculate_effective_capacity_mono r cohorts hbt h0 h1 h2 hm,
    calculate_effective_capacity_of_lt r cohorts month⟩

/-- C4 witness: the monotonicity part instantiated on the modelled submission
table with one cohort of 2 analysts hired in month 1, months 1 to 3. -/
theorem C4_effective_capacity_witness :
    (0 : ℚ) ≤ spec_ramp_submission.base_throughput ∧
    (0 : ℚ) ≤ spec_ramp_submission.p0 ∧
    spec_ramp_submission.p0 ≤ spec_ramp_submission.p1 ∧
    spec_ramp_submission.p1 ≤ spec_ramp_submission.p2 ∧
    (1 : ℕ) ≤ 3 ∧
    calculate_effective_capacity spec_ramp_submission [(1, 2)] 1 ≤
      calculate_effective_capacity spec_ramp_submission [(1, 2)] 3 :=
  ⟨by norm_num [spec_ramp_submission], by norm_num [spec_ramp_submission],
    by norm_num [spec_ramp_submission], by norm_num [spec_ramp_submission],
    by norm_num,
    (C4_effective_capacity spec_ramp_submission [(1, 2)] 1).2.1
      (by norm_num [spec_ramp_submission]) (by norm_num [spec_ramp_submission])
      (by norm_num [spec_ramp_submission]) (by norm_num [spec_ramp_submission])
      3 (by norm_num)⟩

/-- C5: the gap sizer returns 0 whenever current effective monthly capacity
meets or exceeds the required monthly workload, otherwise the ceiling of the
gap over tier-0 productivity × base_throughput × days_per_month, and never a
negative hire count. -/
theorem C5_gap_sizer (r : RampUp) (cohorts : Cohorts) (month : ℕ) (w : ℚ)
    (hp : 0 ≤ r.p0 * r.base_throughput) :
    (w * days_per_month ≤ calculate_effective_capacity r cohorts month * days_per_month →
      calculate_net_new_hires r cohorts month w = 0) ∧
    (calculate_effective_capacity r cohorts month * days_per_month < w * days_per_month →
      calculate_net_new_hires r cohorts month w =
        Int.ceil ((w * days_per_month -
          calculate_effective_capacity r cohorts month * days_per_month) /
          (r.p0 * r.base_throughput * days_per_month))) ∧
    0 ≤ calculate_net_new_hires r cohorts month w := by
  refine ⟨?_, ?_, ?_⟩
  · intro h
    exact nnh_eval_zero r cohorts month w _ rfl (by linarith)
  · intro h
    unfold calculate_net_new_hires
    dsimp only
    rw [max_eq_right (by linarith), if_neg (by intro hc; linarith)]
    exact congrArg Int.ceil (by ring_nf)
  · unfold calculate_net_new_hires
    dsimp only
    split_ifs with h
    · exact le_refl 0
    · refine Int.ceil_nonneg (div_nonneg (le_max_left 0 _) ?_)
      have hd : (0 : ℚ) ≤ days_per_month := by norm_num [days_per_month]
      have := mul_nonneg hp hd
      calc (0 : ℚ) ≤ r.p0 * r.base_throughput * days_per_month := this
      _ = r.p0 * (r.base_throughput * days_per_month) := by ring

/-- C5 witness: the modelled submission table satisfies the positivity side
condition and the sizer's guarantees hold at month 0, empty cohorts, unit
daily workload. -/
theorem C5_gap_sizer_witness :
    (0 : ℚ) ≤ spec_ramp_submission.p0 * spec_ramp_submission.base_throughput ∧
    ((1 * days_per_month ≤
        calculate_effective_capacity spec_ramp_submission [] 0 * days_per_month →
      calculate_net_new_hires spec_ramp_submission [] 0 1 = 0) ∧
    (calculate_effective_capacity spec_ramp_submission [] 0 * days_per_month <
        1 * days_per_month →
      calculate_net_new_hires spec_ramp_submission [] 0 1 =
        Int.ceil ((1 * days_per_month -
          calculate_effective_capacity spec_ramp_submission [] 0 * days_per_month) /
          (spec_ramp_submission.p0 * spec_ramp_submission.base_throughput *
            days_per_month))) ∧
    0 ≤ calculate_net_new_hires spec_ramp_submission [] 0 1) :=
  ⟨by norm_num [spec_ramp_submission],
    C5_gap_sizer spec_ramp_submission [] 0 1 (by norm_num [spec_ramp_submission])⟩

/-- C6: the first emitted plan has active_accounts = 0, revenue = 0 and
margin = 0; its analyst headcounts are exactly the hire counts sized against
month 1's projected workload on the empty tracker; those counts are committed
as month-0 cohorts in the state handed to the month-1 solve, which optimize
performs next. -/
theorem C6_month0_training (rS rD : RampUp) :
    (optimize rS rD).head? = some (month0_plan (run0 rS rD).1) ∧
    (month0_plan (run0 rS rD).1).active_accounts = 0 ∧
    (month0_plan (run0 rS rD).1).revenue = 0 ∧
    (month0_plan (run0 rS rD).1).margin = 0 ∧
    (month0_plan (run0 rS rD).1).submission_analysts =
      (calculate_net_new_hires rS [] 0 (daily_claims_of (active_accounts 1))).toNat ∧
    (month0_plan (run0 rS rD).1).denial_analysts =
      (calculate_net_new_hires rD [] 0 (daily_denials_of (active_accounts 1))).toNat ∧
    (run0 rS rD).2 =
      ([(0, (month0_plan (run0 rS rD).1).submission_analysts)],
        [(0, (month0_plan (run0 rS rD).1).denial_analysts)]) ∧
    (optimize rS rD).get? 1 =
      some ((optimize_staffing rS rD (run0 rS rD).2.1 (run0 rS rD).2.2 1
        (active_accounts 1)).1) := by
  have hs : (month0_plan (run0 rS rD).1).submission_analysts =
      (calculate_net_new_hires rS [] 0 (daily_claims_of (active_accounts 1))).toNat := by
    rw [month0_plan_sub]
    simp only [run0]
    rw [optimize_staffing_sub]
    simp [calculate_total_active_analysts]
  have hd : (month0_plan (run0 rS rD).1).denial_analysts =
      (calculate_net_new_hires rD [] 0 (daily_denials_of (active_accounts 1))).toNat := by
    rw [month0_plan_den]
    simp only [run0]
    rw [optimize_staffing_den]
    simp [calculate_total_active_analysts]
  refine ⟨rfl, (month0_plan_zeros _).1, (month0_plan_zeros _).2.1,
    (month0_plan_zeros _).2.2, hs, hd, ?_, rfl⟩
  rw [hs, hd]
  simp only [run0]
  rw [optimize_staffing_state]
  simp [update_cohorts, dictSet]

/-- C7: each emitted plan's margin is 0 whenever its revenue is 0 (month 0 in
particular, with no division performed), and equals
(revenue − (labor_cost + overhead_cost)) / revenue whenever revenue is
positive. -/
theorem C7_margin_guard (rS rD : RampUp) (p : MonthlyPlan) (hp : p ∈ optimize rS rD) :
    (p.revenue = 0 → p.margin = 0) ∧
    (0 < p.revenue →
      p.margin = (p.revenue - (p.labor_cost + p.overhead_cost)) / p.revenue) := by
  have hmargin : ∀ (sub den : Cohorts) (m a : ℕ),
      (((optimize_staffing rS rD sub den m a).1).revenue = 0 →
        ((optimize_staffing rS rD sub den m a).1).margin = 0) ∧
      (0 < ((optimize_staffing rS rD sub den m a).1).revenue →
        ((optimize_staffing rS rD sub den m a).1).margin =
          (((optimize_staffing rS rD sub den m a).1).revenue -
            (((optimize_staffing rS rD sub den m a).1).labor_cost +
              ((optimize_staffing rS rD sub den m a).1).overhead_cost)) /
            ((optimize_staffing rS rD sub den m a).1).revenue) := by
    intro sub den m a
    rw [optimize_staffing_margin]
    constructor
    · intro h
      rw [h]
      norm_num
    · intro h
      rw [if_pos h]
  simp only [optimize, List.mem_cons, List.not_mem_nil, or_false] at hp
  rcases hp with rfl | rfl | rfl | rfl
  · constructor
    · intro _
      exact (month0_plan_zeros _).2.2
    · intro h
      rw [(month0_plan_zeros _).2.1] at h
      exact absurd h (lt_irrefl 0)
  · simp only [run1]
    exact hmargin _ _ _ _
  · simp only [run2]
    exact hmargin _ _ _ _
  · simp only [run3]
    exact hmargin _ _ _ _

/-- C7 witness: the month-0 plan of the modelled run is in the emitted list
and satisfies both margin clauses. -/
theorem C7_margin_guard_witness :
    (month0_plan (run0 spec_ramp_submission spec_ramp_denial).1 ∈
      optimize spec_ramp_submission spec_ramp_denial) ∧
    (((month0_plan (run0 spec_ramp_submission spec_ramp_denial).1).revenue = 0 →
      (month0_plan (run0 spec_ramp_submission spec_ramp_denial).1).margin = 0) ∧
    (0 < (month0_plan (run0 spec_ramp_submission spec_ramp_denial).1).revenue →
      (month0_plan (run0 spec_ramp_submission spec_ramp_denial).1).margin =
        ((month0_plan (run0 spec_ramp_submission spec_ramp_denial).1).revenue -
          ((month0_plan (run0 spec_ramp_submission spec_ramp_denial).1).labor_cost +
            (month0_plan (run0 spec_ramp_submission spec_ramp_denial).1).overhead_cost)) /
          (month0_plan (run0 spec_ramp_submission spec_ramp_denial).1).revenue)) :=
  ⟨by simp [optimize], C7_margin_guard spec_ramp_submission spec_ramp_denial _
    (by simp [optimize])⟩

/-- C8 counterexample: at month 0 the cohort update of optimizer.py lines
155-157 stores the committed counts unconditionally, so committing a hire
count of 0 changes the tracker and stores zero-headcount cohorts, refuting
the claim's across-all-months no-op contract. -/
theorem C8_counterexample :
    update_cohorts 0 0 0 [] [] = ([(0, 0)], [(0, 0)]) ∧
    update_cohorts 0 0 0 [] [] ≠ (([] : Cohorts), ([] : Cohorts)) := by
  constructor
  · decide
  · decide

/-- C8 amended: for months ≥ 1 a zero hire count leaves each cohort dict
unchanged (a cohort is stored only when its count is strictly positive),
while at month 0 the counts are stored unconditionally via dict assignment;
in the modelled run the month-0 counts are positive, so every cohort stored
in the final tracker has headcount > 0. -/
theorem C8_record_hire_amended (month new_sub new_den : ℕ) (sub den : Cohorts)
    (hm : 1 ≤ month) :
    (new_sub = 0 → (update_cohorts month new_sub new_den sub den).1 = sub) ∧
    (new_den = 0 → (update_cohorts month new_sub new_den sub den).2 = den) ∧
    (update_cohorts 0 new_sub new_den sub den =
      (dictSet sub 0 new_sub, dictSet den 0 new_den)) ∧
    (∀ c ∈ (final_cohorts spec_ramp_submission spec_ramp_denial).1, 0 < c.2) ∧
    (∀ c ∈ (final_cohorts spec_ramp_submission spec_ramp_denial).2, 0 < c.2) := by
  refine ⟨?_, ?_, rfl, ?_, ?_⟩
  · intro h
    subst h
    unfold update_cohorts
    rw [if_neg (by omega)]
    dsimp only
    rw [if_neg (by omega)]
  · intro h
    subst h
    unfold update_cohorts
    rw [if_neg (by omega)]
    dsimp only
    rw [if_neg (by omega)]
  · unfold final_cohorts
    rw [run3_state]
    decide
  · unfold final_cohorts
    rw [run3_state]
    decide

/-- C8 witness: the amended statement instantiated at month 1 with zero
counts on empty dicts. -/
theorem C8_record_hire_amended_witness :
    (1 : ℕ) ≤ 1 ∧
    (((0 : ℕ) = 0 → (update_cohorts 1 0 0 [] []).1 = []) ∧
    ((0 : ℕ) = 0 → (update_cohorts 1 0 0 [] []).2 = []) ∧
    (update_cohorts 0 0 0 [] [] = (dictSet [] 0 0, dictSet [] 0 0)) ∧
    (∀ c ∈ (final_cohorts spec_ramp_submission spec_ramp_denial).1, 0 < c.2) ∧
    (∀ c ∈ (final_cohorts spec_ramp_submission spec_ramp_denial).2, 0 < c.2)) :=
  ⟨le_refl 1, C8_record_hire_amended 1 0 0 [] [] (le_refl 1)⟩

/-- C9 counterexample: with the ramp-up table missing — exactly the shipped
config.py, which never defines PRODUCTIVITY_RAMP_UP — optimizer construction
succeeds, and the configuration failure surfaces only when optimize() runs,
refuting surfaced-at-construction. -/
theorem C9_counterexample :
    except_ok (RCMOptimizer_init { PRODUCTIVITY_RAMP_UP := none }) = true ∧
    except_ok (RCMOptimizer_optimize { PRODUCTIVITY_RAMP_UP := none }) = false :=
  ⟨rfl, rfl⟩

/-- C9 amended: construction performs no parameter-table validation and
always succeeds; a missing PRODUCTIVITY_RAMP_UP table surfaces as a runtime
error during the first monthly solve inside optimize(), and only a
configuration carrying both ramp entries makes optimize() return plans. -/
theorem C9_construction_amended (c : Config) :
    (c.PRODUCTIVITY_RAMP_UP = none →
      except_ok (RCMOptimizer_init c) = true ∧
      except_ok (RCMOptimizer_optimize c) = false) ∧
    (∀ rS rD : RampUp, c.PRODUCTIVITY_RAMP_UP = some (rS, rD) →
      RCMOptimizer_optimize c = Except.ok (optimize rS rD)) := by
  constructor
  · intro h
    exact ⟨rfl, by simp [RCMOptimizer_optimize, h, except_ok]⟩
  · intro rS rD h
    simp [RCMOptimizer_optimize, h]

/-- C9 witness: the amended statement instantiated at the shipped
configuration, whose ramp table is absent. -/
theorem C9_construction_amended_witness :
    (Config.mk none).PRODUCTIVITY_RAMP_UP = none ∧
    (except_ok (RCMOptimizer_init (Config.mk none)) = true ∧
      except_ok (RCMOptimizer_optimize (Config.mk none)) = false) :=
  ⟨rfl, (C9_construction_amended (Config.mk none)).1 rfl⟩

/-- C10: along the 4-element plan list returned by optimize, the
submission_analysts, denial_analysts and managers fields never decrease from
one month to the next: cohorts are never removed, so active headcount only
grows, and the manager count is the monotone ceiling of the analyst total. -/
theorem C10_headcounts_monotone (rS rD : RampUp) :
    List.Chain' (fun p q =>
      p.submission_analysts ≤ q.submission_analysts ∧
      p.denial_analysts ≤ q.denial_analysts ∧
      p.managers ≤ q.managers) (optimize rS rD) := by
  have k0 := staffing_keys_le rS rD [] [] 0 (active_accounts 1) (by simp) (by simp)
  have k1 := staffing_keys_le rS rD
    (optimize_staffing rS rD [] [] 0 (active_accounts 1)).2.1
    (optimize_staffing rS rD [] [] 0 (active_accounts 1)).2.2 1 (active_accounts 1)
    (fun c hc => le_trans (k0.1 c hc) (by omega))
    (fun c hc => le_trans (k0.2 c hc) (by omega))
  have s01 := staffing_step_mono rS rD [] [] 0 (active_accounts 1) 1 (active_accounts 1)
    (by omega) (by simp) (by simp)
  have s12 := staffing_step_mono rS rD
    (optimize_staffing rS rD [] [] 0 (active_accounts 1)).2.1
    (optimize_staffing rS rD [] [] 0 (active_accounts 1)).2.2
    1 (active_accounts 1) 2 (active_accounts 2)
    (by omega)
    (fun c hc => by have := k0.1 c hc; omega)
    (fun c hc => by have := k0.2 c hc; omega)
  have s23 := staffing_step_mono rS rD
    (optimize_staffing rS rD (optimize_staffing rS rD [] [] 0 (active_accounts 1)).2.1
      (optimize_staffing rS rD [] [] 0 (active_accounts 1)).2.2 1 (active_accounts 1)).2.1
    (optimize_staffing rS rD (optimize_staffing rS rD [] [] 0 (active_accounts 1)).2.1
      (optimize_staffing rS rD [] [] 0 (active_accounts 1)).2.2 1 (active_accounts 1)).2.2
    2 (active_accounts 2) 3 (active_accounts 3)
    (by omega)
    (fun c hc => by have := k1.1 c hc; omega)
    (fun c hc => by have := k1.2 c hc; omega)
  simp only [optimize, run0, run1, run2, run3, List.chain'_cons, List.chain'_singleton,
    month0_plan_sub, month0_plan_den, month0_plan_mgr, and_true]
  exact ⟨s01, s12, s23⟩

end RCM
